import Mathlib

/-!
Shallow embedding of the MCP-Server repository (client1.py, main.py) used to
check the natural-language specification against the code.

The chat client (client1.py) keeps an ordered history of messages, lets a
model propose tool calls, executes them through a name-keyed registry, and
appends a final answer.  The time tracker (main.py) is a SQLite-backed CRUD
API; its add_session operation is embedded over a pure database state.
External effects (model endpoint, tool transport, JSON codec) are passed in
as function-valued fields of an environment record, mirroring the call sites
in the source.
-/

/-- JSON-like values, the payloads moved between the model and the tools.
Numeric leaves are embedded as integers; none of the checked claims depends
on numeric contents. -/
inductive JVal : Type where
  | str (s : String)
  | num (n : Int)
  | bool (b : Bool)
  | null
  | arr (xs : List JVal)
  | obj (kvs : List (String × JVal))
deriving Repr

/-- Python truthiness on JSON-like values: the empty string, zero, false,
None, the empty list and the empty dict are falsy. -/
def JVal.falsy : JVal → Bool
  | .str s => s == ""
  | .num n => n == 0
  | .bool b => !b
  | .null => true
  | .arr xs => xs.isEmpty
  | .obj kvs => kvs.isEmpty

/-- A tool call requested by the model: client1.py reads tc[\x22id\x22],
tc[\x22name\x22] and tc.get(\x22args\x22); the args key may be absent. -/
structure ToolCall where
  id : String
  name : String
  args : Option JVal
deriving Repr

/-- An assistant response from the model: content plus the (possibly empty)
list of requested tool calls, as carried by a langchain AIMessage. -/
structure AIMsg where
  content : String
  tool_calls : List ToolCall
deriving Repr

/-- One entry of st.session_state.history: SystemMessage, HumanMessage,
AIMessage (with its tool_calls) or ToolMessage. -/
inductive Msg : Type where
  | system (content : String)
  | human (content : String)
  | ai (content : String) (tool_calls : List ToolCall)
  | tool (tool_call_id : String) (content : String)
deriving Repr

/-- Exceptions that the un-guarded call sites of client1.py can raise:
a missing registry key, a tool invocation failure, and a model transport
failure (ModelUnavailable). -/
inductive Err : Type where
  | keyError (name : String)
  | toolError (message : String)
  | modelUnavailable
deriving Repr

/-- The external collaborators of the chat turn handler, one field per call
site in client1.py: llm_with_tools.ainvoke (propose), llm.ainvoke
(finalize), the tool_by_name lookup, the json.dumps serializer and the
json.loads parser. -/
structure Env where
  propose : List Msg → Except Err AIMsg
  finalize : List Msg → Except Err AIMsg
  tool_by_name : String → Option (JVal → Except Err JVal)
  dumps : JVal → String
  jsonLoads : String → Option JVal

/-- Line 109 of client1.py: args = tc.get(\x22args\x22) or \x7b\x7d.
A missing or falsy args value is replaced by the empty dict. -/
def getArgs (tc : ToolCall) : JVal :=
  match tc.args with
  | none => .obj []
  | some v => if v.falsy then .obj [] else v

/-- Lines 110-114 of client1.py: a string argument value is parsed with
json.loads; on a parse failure the exception is swallowed and the string is
kept as is.  Non-string values pass through untouched. -/
def coerceArgs (jsonLoads : String → Option JVal) (a : JVal) : JVal :=
  match a with
  | .str s =>
    match jsonLoads s with
    | some v => v
    | none => .str s
  | v => v

/-- The argument preprocessing applied to one requested call before
dispatch: getArgs followed by coerceArgs. -/
def processArgs (jsonLoads : String → Option JVal) (tc : ToolCall) : JVal :=
  coerceArgs jsonLoads (getArgs tc)

/-- Lines 106-117 of client1.py: the for-loop over tool_calls.  Each
iteration looks the tool up (raising KeyError when absent), invokes it
(propagating any failure) and collects a ToolMessage carrying the request id
and the serialized result.  An exception at any iteration discards the
collected list, because history.extend on line 119 only runs after the loop
completes. -/
def runTools (env : Env) : List ToolCall → Except Err (List Msg)
  | [] => .ok []
  | tc :: rest =>
    let args := processArgs env.jsonLoads tc
    match env.tool_by_name tc.name with
    | none => .error (.keyError tc.name)
    | some tool =>
      match tool args with
      | .error e => .error e
      | .ok res =>
        match runTools env rest with
        | .error e => .error e
        | .ok msgs => .ok (Msg.tool tc.id (env.dumps res) :: msgs)

/-- Line 125 of client1.py writes final.content or \x22\x22; on strings this
guard is the identity, kept here for fidelity. -/
def contentOrEmpty (s : String) : String :=
  if s == "" then "" else s

/-- Lines 84-125 of client1.py: one chat turn.  The user message is
appended; propose runs; with no tool calls the first response is appended
and the turn ends; otherwise the tool-calling response is appended, the
tools run, their messages are extended onto the history, and finalize
produces the closing assistant message, appended with no tool calls of its
own.  The returned pair is the history as left by the turn together with
the exception that aborted it, if any: an exception leaves every append
performed before the failing call in place. -/
def handleTurn (env : Env) (history : List Msg) (user_text : String) :
    List Msg × Option Err :=
  let h1 := history ++ [Msg.human user_text]
  match env.propose h1 with
  | .error e => (h1, some e)
  | .ok first =>
    if first.tool_calls.isEmpty then
      (h1 ++ [Msg.ai first.content first.tool_calls], none)
    else
      let h2 := h1 ++ [Msg.ai first.content first.tool_calls]
      match runTools env first.tool_calls with
      | .error e => (h2, some e)
      | .ok tool_msgs =>
        let h3 := h2 ++ tool_msgs
        match env.finalize h3 with
        | .error e => (h3, some e)
        | .ok final => (h3 ++ [Msg.ai (contentOrEmpty final.content) []], none)

/-- Lines 70-80 of client1.py: the rendering decision for one history
entry.  HumanMessage renders as a user bubble; AIMessage renders as an
assistant bubble unless it carries tool_calls; ToolMessage and
SystemMessage render nothing. -/
def renderEntry : Msg → Option (String × String)
  | .human t => some ("user", t)
  | .ai c tool_calls => if tool_calls.isEmpty then some ("assistant", c) else none
  | .tool _ _ => none
  | .system _ => none

/-- The rendered view of the whole history: the for-loop over
st.session_state.history, a pure function of the stored sequence. -/
def render (history : List Msg) : List (String × String) :=
  history.filterMap renderEntry

/-- A tool descriptor as the registry sees it: a name plus its behavior. -/
structure ToolDef where
  name : String
  impl : JVal → Except Err JVal

/-- Line 60 of client1.py: st.session_state.tool_by_name is the dict
comprehension keyed by t.name, so a later descriptor with the same name
overwrites an earlier one. -/
def buildRegistry (tools : List ToolDef) : String → Option ToolDef :=
  tools.foldl (fun m t => fun n => if n == t.name then some t else m n)
    (fun _ => none)

/-- The call ids of the ToolMessage entries of a history fragment, in
order. -/
def callIds (msgs : List Msg) : List String :=
  msgs.filterMap fun m =>
    match m with
    | .tool cid _ => some cid
    | _ => none

/-- The number of ToolMessage entries of a history carrying a given call
id. -/
def toolResultCount (history : List Msg) (cid : String) : Nat :=
  (history.filter fun m =>
    match m with
    | .tool c _ => c == cid
    | _ => false).length

/-- A row of the categories table of main.py. -/
structure Category where
  id : Nat
  name : String
  color : String
deriving Repr

/-- A row of the sessions table of main.py. -/
structure Session where
  id : Nat
  activity : String
  minutes : Int
  category_id : Nat
  session_date : String
deriving Repr

/-- A row of the notes table of main.py. -/
structure Note where
  id : Nat
  session_id : Nat
  content : String
deriving Repr

/-- The SQLite database state of main.py: the three tables plus the
autoincrement counters for sessions and notes. -/
structure DB where
  categories : List Category
  sessions : List Session
  notes : List Note
  nextSessionId : Nat
  nextNoteId : Nat
deriving Repr

/-- The dictionary returned by add_session: status success with the echoed
fields, or status error with a message.  The derived hours field of the
success payload is a float rounding of minutes and is omitted from the
embedding. -/
inductive AddSessionResult : Type where
  | success (id : Nat) (activity : String) (minutes : Int) (category : String)
      (date : String)
  | error (message : String)
deriving Repr

/-- Lines 106-161 of main.py: add_session.  Non-positive minutes return an
error before any database access; a category name absent from the
categories table returns an error after the lookup only; otherwise a
session row is inserted, a note row is inserted when the note string is
non-empty, and the success payload is returned.  today stands for
date.today().isoformat(). -/
def add_session (db : DB) (activity : String) (minutes : Int)
    (category : String) (session_date : Option String) (note : String)
    (today : String) : AddSessionResult × DB :=
  if minutes ≤ 0 then
    (.error "Minutes must be positive", db)
  else
    let sdate := session_date.getD today
    match db.categories.find? (fun c => c.name == category) with
    | none =>
      (.error ("Category \x27" ++ category ++
        "\x27 not found. Use add_category() first."), db)
    | some cat =>
      let sid := db.nextSessionId
      let db1 : DB :=
        { db with
          sessions := db.sessions ++ [⟨sid, activity, minutes, cat.id, sdate⟩]
          nextSessionId := sid + 1 }
      let db2 : DB :=
        if note == "" then db1
        else
          { db1 with
            notes := db1.notes ++ [⟨db1.nextNoteId, sid, note⟩]
            nextNoteId := db1.nextNoteId + 1 }
      (.success sid activity minutes category sdate, db2)

/-! ## Helper lemmas characterizing the branches of a chat turn -/

/-- A model transport failure at the propose call aborts the turn with the
history as appended so far: just the user message. -/
theorem handleTurn_propose_error (env : Env) (h : List Msg) (u : String)
    (e : Err) (hp : env.propose (h ++ [Msg.human u]) = .error e) :
    handleTurn env h u = (h ++ [Msg.human u], some e) := by
  simp only [handleTurn]
  rw [hp]

/-- With no tool calls in the first response, the turn appends it and
ends. -/
theorem handleTurn_no_calls (env : Env) (h : List Msg) (u : String)
    (first : AIMsg) (hp : env.propose (h ++ [Msg.human u]) = .ok first)
    (hempty : first.tool_calls = []) :
    handleTurn env h u =
      ((h ++ [Msg.human u]) ++ [Msg.ai first.content first.tool_calls],
        none) := by
  simp only [handleTurn]
  rw [hp]
  simp [hempty]

/-- A failure inside the tool loop aborts the turn after the tool-calling
assistant message was appended and before any tool message is. -/
theorem handleTurn_tools_error (env : Env) (h : List Msg) (u : String)
    (first : AIMsg) (e : Err)
    (hp : env.propose (h ++ [Msg.human u]) = .ok first)
    (hne : first.tool_calls.isEmpty = false)
    (hr : runTools env first.tool_calls = .error e) :
    handleTurn env h u =
      ((h ++ [Msg.human u]) ++ [Msg.ai first.content first.tool_calls],
        some e) := by
  simp only [handleTurn]
  rw [hp]
  simp only [hne, Bool.false_eq_true, if_false]
  rw [hr]

/-- A model transport failure at the finalize call aborts the turn with the
user message, the tool-calling assistant message and all tool messages
appended. -/
theorem handleTurn_finalize_error (env : Env) (h : List Msg) (u : String)
    (first : AIMsg) (msgs : List Msg) (e : Err)
    (hp : env.propose (h ++ [Msg.human u]) = .ok first)
    (hne : first.tool_calls.isEmpty = false)
    (hr : runTools env first.tool_calls = .ok msgs)
    (hf : env.finalize (((h ++ [Msg.human u]) ++
      [Msg.ai first.content first.tool_calls]) ++ msgs) = .error e) :
    handleTurn env h u =
      (((h ++ [Msg.human u]) ++ [Msg.ai first.content first.tool_calls])
        ++ msgs, some e) := by
  simp only [handleTurn]
  rw [hp]
  simp only [hne, Bool.false_eq_true, if_false]
  rw [hr]
  simp only [hf]

/-- The fully successful tool-calling turn: user message, assistant message
with calls, one tool message per call, final assistant answer. -/
theorem handleTurn_success (env : Env) (h : List Msg) (u : String)
    (first : AIMsg) (msgs : List Msg) (final : AIMsg)
    (hp : env.propose (h ++ [Msg.human u]) = .ok first)
    (hne : first.tool_calls.isEmpty = false)
    (hr : runTools env first.tool_calls = .ok msgs)
    (hf : env.finalize (((h ++ [Msg.human u]) ++
      [Msg.ai first.content first.tool_calls]) ++ msgs) = .ok final) :
    handleTurn env h u =
      ((((h ++ [Msg.human u]) ++ [Msg.ai first.content first.tool_calls])
        ++ msgs) ++ [Msg.ai (contentOrEmpty final.content) []], none) := by
  simp only [handleTurn]
  rw [hp]
  simp only [hne, Bool.false_eq_true, if_false]
  rw [hr]
  simp only [hf]

/-- A successful run of the tool loop yields one tool message per request,
carrying the request ids in request order. -/
theorem runTools_ok_ids (env : Env) :
    ∀ cs msgs, runTools env cs = .ok msgs →
      callIds msgs = cs.map ToolCall.id ∧ msgs.length = cs.length := by
  intro cs
  induction cs with
  | nil =>
    intro msgs hmsg
    simp only [runTools] at hmsg
    cases hmsg
    simp [callIds]
  | cons tc rest ih =>
    intro msgs hmsg
    simp only [runTools] at hmsg
    split at hmsg
    · cases hmsg
    · split at hmsg
      · cases hmsg
      · split at hmsg
        · cases hmsg
        · rename_i msgs0 hrec
          cases hmsg
          obtain ⟨hids, hlen⟩ := ih msgs0 hrec
          refine ⟨?_, ?_⟩
          · show tc.id :: callIds msgs0 = tc.id :: rest.map ToolCall.id
            rw [hids]
          · simp [hlen]

/-- Accumulator form of the registry fold: a lookup returns the last
matching descriptor of the list, falling back to the accumulator. -/
theorem buildRegistry_foldl (tools : List ToolDef)
    (acc : String → Option ToolDef) (n : String) :
    (tools.foldl (fun m t => fun x => if x == t.name then some t else m x)
        acc) n =
      match tools.reverse.find? (fun t => t.name == n) with
      | some t => some t
      | none => acc n := by
  induction tools generalizing acc with
  | nil => simp
  | cons t rest ih =>
    rw [List.foldl_cons, ih, List.reverse_cons, List.find?_append]
    cases hfind : rest.reverse.find? (fun t => t.name == n) with
    | some u => rfl
    | none =>
      by_cases hc : t.name = n
      · simp [Option.or, hc]
      · simp [Option.or, beq_iff_eq, hc, Ne.symm hc]

/-! ## Claims about the tool registry and the time tracker -/

/-- Claim C9: the registry built on line 60 of client1.py resolves
duplicate names deterministically by last-registered-wins: for any sequence
of tool descriptors, the registry maps a name to the last descriptor
bearing it (none when no descriptor bears it), and as a pure function of
the sequence it is the same on the same input. -/
theorem c9_registry_last_wins (tools : List ToolDef) (n : String) :
    buildRegistry tools n = tools.reverse.find? (fun t => t.name == n) := by
  rw [buildRegistry, buildRegistry_foldl]
  cases tools.reverse.find? (fun t => t.name == n) <;> rfl

/-- Claim C10: add_session called with non-positive minutes or with a
category name absent from the categories table returns a status-error
payload with a message and leaves the database unchanged: no session row
and no note row is inserted. -/
theorem c10_add_session_guards (db : DB) (activity : String) (minutes : Int)
    (category : String) (session_date : Option String) (note today : String)
    (hbad : minutes ≤ 0 ∨
      db.categories.find? (fun c => c.name == category) = none) :
    ∃ msg, add_session db activity minutes category session_date note today =
      (AddSessionResult.error msg, db) := by
  unfold add_session
  rcases hbad with hm | hc
  · exact ⟨"Minutes must be positive", by simp [hm]⟩
  · by_cases hm : minutes ≤ 0
    · exact ⟨"Minutes must be positive", by simp [hm]⟩
    · refine ⟨"Category \x27" ++ category ++
        "\x27 not found. Use add_category() first.", ?_⟩
      simp only [hm, if_false]
      rw [hc]

/-- Witness for C10: with only the category Work present, adding a session
of zero minutes errors and leaves the database untouched. -/
theorem c10_add_session_guards_witness :
    ∃ msg,
      add_session ⟨[⟨1, "Work", "#3B82F6"⟩], [], [], 1, 1⟩ "reading" 0 "Work"
          none "" "2026-10-12" =
        (AddSessionResult.error msg, ⟨[⟨1, "Work", "#3B82F6"⟩], [], [], 1, 1⟩) :=
  c10_add_session_guards ⟨[⟨1, "Work", "#3B82F6"⟩], [], [], 1, 1⟩ "reading" 0
    "Work" none "" "2026-10-12" (Or.inl (by decide))

/-! ## Claims about the transcript view and append-only discipline -/

/-- Claim C7: the rendered view includes every user message, includes every
assistant message with empty tool calls, excludes every assistant message
carrying tool calls, and excludes every tool message and system message;
render is a pure function of the stored sequence, characterized here by its
action on each appended entry. -/
theorem c7_render_view :
    (∀ h t, render (h ++ [Msg.human t]) = render h ++ [("user", t)]) ∧
    (∀ h c, render (h ++ [Msg.ai c []]) = render h ++ [("assistant", c)]) ∧
    (∀ h c tcs, tcs ≠ [] → render (h ++ [Msg.ai c tcs]) = render h) ∧
    (∀ h cid ct, render (h ++ [Msg.tool cid ct]) = render h) ∧
    (∀ h t, render (h ++ [Msg.system t]) = render h) := by
  refine ⟨?_, ?_, ?_, ?_, ?_⟩
  · intro h t; simp [render, renderEntry, List.filterMap_append]
  · intro h c; simp [render, renderEntry, List.filterMap_append]
  · intro h c tcs htcs
    simp [render, renderEntry, List.filterMap_append,
      List.isEmpty_eq_false.mpr htcs]
  · intro h cid ct; simp [render, renderEntry, List.filterMap_append]
  · intro h t; simp [render, renderEntry, List.filterMap_append]

/-- Witness for C7: an assistant message carrying a tool call renders
nothing. -/
theorem c7_render_view_witness :
    render ([Msg.system "s"] ++ [Msg.ai "thinking" [⟨"a", "add", none⟩]]) =
      render [Msg.system "s"] :=
  c7_render_view.2.2.1 [Msg.system "s"] "thinking" [⟨"a", "add", none⟩]
    (List.cons_ne_nil _ _)

/-- Claim C8: the history is append-only across a turn: whatever the model,
registry and tools do, the history a turn leaves behind extends the prior
history at the end, so previously appended entries are never mutated,
reordered or deleted, and every intermediate state of the turn appends via
list concatenation only. -/
theorem c8_append_only (env : Env) (h : List Msg) (u : String) :
    ∃ tail, (handleTurn env h u).1 = h ++ tail := by
  cases hp : env.propose (h ++ [Msg.human u]) with
  | error e =>
    exact ⟨[Msg.human u], by rw [handleTurn_propose_error env h u e hp]⟩
  | ok first =>
    by_cases hempty : first.tool_calls = []
    · exact ⟨[Msg.human u, Msg.ai first.content first.tool_calls], by
        rw [handleTurn_no_calls env h u first hp hempty]
        simp [List.append_assoc]⟩
    · have hne : first.tool_calls.isEmpty = false :=
        List.isEmpty_eq_false.mpr hempty
      cases hr : runTools env first.tool_calls with
      | error e =>
        exact ⟨[Msg.human u, Msg.ai first.content first.tool_calls], by
          rw [handleTurn_tools_error env h u first e hp hne hr]
          simp [List.append_assoc]⟩
      | ok msgs =>
        cases hfin : env.finalize (((h ++ [Msg.human u]) ++
            [Msg.ai first.content first.tool_calls]) ++ msgs) with
        | error e =>
          exact ⟨([Msg.human u] ++ [Msg.ai first.content first.tool_calls])
              ++ msgs, by
            rw [handleTurn_finalize_error env h u first msgs e hp hne hr hfin]
            simp [List.append_assoc]⟩
        | ok final =>
          exact ⟨(([Msg.human u] ++ [Msg.ai first.content first.tool_calls])
              ++ msgs) ++ [Msg.ai (contentOrEmpty final.content) []], by
            rw [handleTurn_success env h u first msgs final hp hne hr hfin]
            simp [List.append_assoc]⟩

/-! ## Concrete environments used by witnesses and counterexamples -/

/-- A JSON parser that fails on every input. -/
def jsonLoadsNone : String → Option JVal := fun _ => none

/-- An environment whose model transport fails at once. -/
def envProposeFail : Env where
  propose := fun _ => .error .modelUnavailable
  finalize := fun _ => .error .modelUnavailable
  tool_by_name := fun _ => none
  dumps := fun _ => ""
  jsonLoads := jsonLoadsNone

/-- The fly_to_moon call of spec scenario 3, a tool absent from every
registry below. -/
def moonCall : ToolCall := ⟨"a", "fly_to_moon", none⟩

/-- An environment whose model requests the unknown tool fly_to_moon
against an empty registry. -/
def envMissingTool : Env where
  propose := fun _ => .ok ⟨"", [moonCall]⟩
  finalize := fun _ => .ok ⟨"done", []⟩
  tool_by_name := fun _ => none
  dumps := fun _ => ""
  jsonLoads := jsonLoadsNone

/-- The add call of spec scenario 1. -/
def addCall : ToolCall :=
  ⟨"a", "add", some (.obj [("a", .num 12), ("b", .num 30)])⟩

/-- An environment where add succeeds and the finalize response tries to
request a further tool call, which the appended final answer must not
carry. -/
def envSneakyFinal : Env where
  propose := fun _ => .ok ⟨"", [addCall]⟩
  finalize := fun _ => .ok ⟨"42", [moonCall]⟩
  tool_by_name := fun n =>
    if n == "add" then some (fun _ => .ok (.num 42)) else none
  dumps := fun _ => "42"
  jsonLoads := jsonLoadsNone

/-- The two calls of spec scenario 4: an add that will succeed followed by
a division by zero. -/
def addCallOk : ToolCall :=
  ⟨"a", "add", some (.obj [("a", .num 1), ("b", .num 2)])⟩

/-- The failing divide call of spec scenario 4. -/
def divideCallBad : ToolCall :=
  ⟨"b", "divide", some (.obj [("a", .num 1), ("b", .num 0)])⟩

/-- An environment running spec scenario 4 against the code: add succeeds,
divide raises. -/
def envDivideFails : Env where
  propose := fun _ => .ok ⟨"", [addCallOk, divideCallBad]⟩
  finalize := fun _ => .ok ⟨"done", []⟩
  tool_by_name := fun n =>
    if n == "add" then some (fun _ => .ok (.num 3))
    else if n == "divide" then
      some (fun _ => .error (.toolError "Division by zero is not allowed"))
    else none
  dumps := fun _ => "3"
  jsonLoads := jsonLoadsNone

/-- An environment where add succeeds but the finalize transport fails:
the tool messages are extended onto the history on line 119 before the
finalize call on line 122 runs. -/
def envFinalizeFail : Env where
  propose := fun _ => .ok ⟨"", [addCall]⟩
  finalize := fun _ => .error .modelUnavailable
  tool_by_name := fun n =>
    if n == "add" then some (fun _ => .ok (.num 42)) else none
  dumps := fun _ => "42"
  jsonLoads := jsonLoadsNone

/-! ## Claims about the orchestration of one turn -/

/-- Claim C4: a model transport failure during propose or during finalize
leaves the history exactly as appended up to the failure point: after a
propose failure only the user message was appended, after a finalize
failure the user message, the tool-calling assistant message and all tool
messages were; no partial assistant message is appended and the prior
history stays in place unaltered. -/
theorem c4_model_error_transcript (env : Env) (h : List Msg) (u : String) :
    (∀ e, env.propose (h ++ [Msg.human u]) = .error e →
      handleTurn env h u = (h ++ [Msg.human u], some e)) ∧
    (∀ first msgs e, env.propose (h ++ [Msg.human u]) = .ok first →
      first.tool_calls.isEmpty = false →
      runTools env first.tool_calls = .ok msgs →
      env.finalize (((h ++ [Msg.human u]) ++
        [Msg.ai first.content first.tool_calls]) ++ msgs) = .error e →
      handleTurn env h u =
        (((h ++ [Msg.human u]) ++ [Msg.ai first.content first.tool_calls])
          ++ msgs, some e)) :=
  ⟨fun e hp => handleTurn_propose_error env h u e hp,
   fun first msgs e hp hne hr hf =>
     handleTurn_finalize_error env h u first msgs e hp hne hr hf⟩

/-- Witness for C4: a ModelUnavailable failure at propose leaves just the
user message appended. -/
theorem c4_model_error_transcript_witness :
    handleTurn envProposeFail [] "hi" =
      ([] ++ [Msg.human "hi"], some Err.modelUnavailable) :=
  (c4_model_error_transcript envProposeFail [] "hi").1 Err.modelUnavailable rfl

/-- Claim C5: every turn that reaches the finalize step appends a final
assistant message with empty tool calls: whatever tool calls the finalize
response itself carries, line 125 of client1.py rebuilds the appended entry
from the content alone. -/
theorem c5_final_answer_no_pending (env : Env) (h : List Msg) (u : String)
    (first : AIMsg) (msgs : List Msg) (final : AIMsg)
    (hp : env.propose (h ++ [Msg.human u]) = .ok first)
    (hne : first.tool_calls.isEmpty = false)
    (hr : runTools env first.tool_calls = .ok msgs)
    (hf : env.finalize (((h ++ [Msg.human u]) ++
      [Msg.ai first.content first.tool_calls]) ++ msgs) = .ok final) :
    (handleTurn env h u).1.getLast? =
      some (Msg.ai (contentOrEmpty final.content) []) ∧
    (handleTurn env h u).2 = none := by
  rw [handleTurn_success env h u first msgs final hp hne hr hf]
  exact ⟨List.getLast?_concat _, rfl⟩

/-- Witness for C5: the finalize response carries a tool call, yet the
appended final answer carries none. -/
theorem c5_final_answer_no_pending_witness :
    (handleTurn envSneakyFinal [] "what is 12 plus 30?").1.getLast? =
      some (Msg.ai (contentOrEmpty "42") []) ∧
    (handleTurn envSneakyFinal [] "what is 12 plus 30?").2 = none :=
  c5_final_answer_no_pending envSneakyFinal [] "what is 12 plus 30?"
    ⟨"", [addCall]⟩ [Msg.tool "a" "42"] ⟨"42", [moonCall]⟩ rfl rfl rfl rfl

/-- Claim C1 (amended): in every turn whose first response carries tool
calls and in which every tool lookup and every tool invocation succeed,
exactly one tool result entry is appended per requested call, immediately
after the assistant message holding the requests, in request order and
carrying the request ids -- whether the subsequent finalize call succeeds
or fails, since the extend on line 119 runs before the finalize call on
line 122; a turn aborted by a failing lookup or invocation instead leaves
the pending calls with no result entries. -/
theorem c1_pairing_on_success (env : Env) (h : List Msg) (u : String)
    (first : AIMsg) (msgs : List Msg)
    (hp : env.propose (h ++ [Msg.human u]) = .ok first)
    (hne : first.tool_calls.isEmpty = false)
    (hr : runTools env first.tool_calls = .ok msgs) :
    (∃ tail, (handleTurn env h u).1 =
      ((((h ++ [Msg.human u]) ++ [Msg.ai first.content first.tool_calls])
        ++ msgs) ++ tail)) ∧
    callIds msgs = first.tool_calls.map ToolCall.id ∧
    msgs.length = first.tool_calls.length := by
  obtain ⟨hids, hlen⟩ := runTools_ok_ids env first.tool_calls msgs hr
  refine ⟨?_, hids, hlen⟩
  cases hf : env.finalize (((h ++ [Msg.human u]) ++
      [Msg.ai first.content first.tool_calls]) ++ msgs) with
  | error e =>
    exact ⟨[], by
      rw [handleTurn_finalize_error env h u first msgs e hp hne hr hf]
      simp⟩
  | ok final =>
    exact ⟨[Msg.ai (contentOrEmpty final.content) []], by
      rw [handleTurn_success env h u first msgs final hp hne hr hf]⟩

/-- Witness for C1 (amended): the single add call gets the single result
entry with its id, here in a turn whose finalize call fails after the
extend. -/
theorem c1_pairing_on_success_witness :
    (∃ tail, (handleTurn envFinalizeFail [] "q").1 =
      (((([] ++ [Msg.human "q"]) ++ [Msg.ai "" [addCall]])
        ++ [Msg.tool "a" "42"]) ++ tail)) ∧
    callIds [Msg.tool "a" "42"] = [addCall].map ToolCall.id ∧
    [Msg.tool "a" "42"].length = [addCall].length :=
  c1_pairing_on_success envFinalizeFail [] "q" ⟨"", [addCall]⟩
    [Msg.tool "a" "42"] rfl rfl rfl

/-- Claim C1 counterexample: a turn whose single pending call names the
unknown tool fly_to_moon ends with that call having zero result entries in
the history, not exactly one. -/
theorem c1_pairing_counterexample :
    (handleTurn envMissingTool [] "go").1 =
      [Msg.human "go", Msg.ai "" [moonCall]] ∧
    toolResultCount (handleTurn envMissingTool [] "go").1 "a" = 0 := by
  constructor <;> rfl

/-- Claim C2 counterexample (spec scenario 3): requesting fly_to_moon
against the registry makes the turn abort with KeyError: no error result
entry is synthesized and no final assistant answer is produced. -/
theorem c2_unknown_tool_counterexample :
    (handleTurn envMissingTool [] "to the moon").2 =
      some (Err.keyError "fly_to_moon") ∧
    toolResultCount (handleTurn envMissingTool [] "to the moon").1 "a" = 0 ∧
    (handleTurn envMissingTool [] "to the moon").1.getLast? =
      some (Msg.ai "" [moonCall]) := by
  refine ⟨rfl, rfl, rfl⟩

/-- Claim C2 (amended): when the first requested call names a tool absent
from the registry, the dictionary lookup on line 115 of client1.py raises
KeyError naming it and the turn aborts: no result entry is appended, no
final answer is produced, and the history keeps the assistant message with
its pending calls. -/
theorem c2_unknown_tool_raises (env : Env) (h : List Msg) (u : String)
    (first : AIMsg) (tc : ToolCall) (rest : List ToolCall)
    (hp : env.propose (h ++ [Msg.human u]) = .ok first)
    (hcalls : first.tool_calls = tc :: rest)
    (hmiss : env.tool_by_name tc.name = none) :
    handleTurn env h u =
      ((h ++ [Msg.human u]) ++ [Msg.ai first.content first.tool_calls],
        some (Err.keyError tc.name)) := by
  have hne : first.tool_calls.isEmpty = false := by rw [hcalls]; rfl
  have hr : runTools env first.tool_calls = .error (.keyError tc.name) := by
    rw [hcalls]
    simp only [runTools]
    rw [hmiss]
  exact handleTurn_tools_error env h u first (Err.keyError tc.name) hp hne hr

/-- Witness for C2 (amended): the fly_to_moon request aborts the turn with
KeyError. -/
theorem c2_unknown_tool_raises_witness :
    handleTurn envMissingTool [] "fly me" =
      (([] ++ [Msg.human "fly me"]) ++ [Msg.ai "" [moonCall]],
        some (Err.keyError "fly_to_moon")) :=
  c2_unknown_tool_raises envMissingTool [] "fly me" ⟨"", [moonCall]⟩ moonCall
    [] rfl rfl rfl

/-- Claim C3 counterexample (spec scenario 4): the failure of divide
propagates and aborts the turn: the history keeps only the user message and
the assistant message with both pending calls, so the successful add call
leaves no result entry either and no final answer is appended. -/
theorem c3_batch_counterexample :
    (handleTurn envDivideFails [] "go").1 =
      [Msg.human "go", Msg.ai "" [addCallOk, divideCallBad]] ∧
    (handleTurn envDivideFails [] "go").2 =
      some (Err.toolError "Division by zero is not allowed") := by
  constructor <;> rfl

/-- Claim C3 (amended): a failure raised by any tool invocation of the
batch propagates out of the loop and aborts the turn: the collected results
are discarded, no tool result entry is appended (not even for calls that
succeeded) and no final answer is produced; the error surfaces to the
caller. -/
theorem c3_tool_failure_aborts (env : Env) (h : List Msg) (u : String)
    (first : AIMsg) (e : Err)
    (hp : env.propose (h ++ [Msg.human u]) = .ok first)
    (hne : first.tool_calls.isEmpty = false)
    (hr : runTools env first.tool_calls = .error e) :
    handleTurn env h u =
      ((h ++ [Msg.human u]) ++ [Msg.ai first.content first.tool_calls],
        some e) :=
  handleTurn_tools_error env h u first e hp hne hr

/-- Witness for C3 (amended): scenario 4 aborts with the divide error and
appends no tool results. -/
theorem c3_tool_failure_aborts_witness :
    handleTurn envDivideFails [] "sum then divide" =
      (([] ++ [Msg.human "sum then divide"]) ++
        [Msg.ai "" [addCallOk, divideCallBad]],
        some (Err.toolError "Division by zero is not allowed")) :=
  c3_tool_failure_aborts envDivideFails [] "sum then divide"
    ⟨"", [addCallOk, divideCallBad]⟩
    (Err.toolError "Division by zero is not allowed") rfl rfl rfl

/-- Claim C6 counterexample: a call whose args field is the empty string --
a string the JSON parser rejects -- is replaced by the empty dict on line
109 of client1.py before the parse attempt on line 112, so the raw string
is not forwarded to the tool. -/
theorem c6_string_args_counterexample :
    processArgs jsonLoadsNone ⟨"a", "add", some (JVal.str "")⟩ =
      JVal.obj [] ∧
    processArgs jsonLoadsNone ⟨"a", "add", some (JVal.str "")⟩ ≠
      JVal.str "" :=
  ⟨rfl, fun hcontra => nomatch hcontra⟩

/-- Claim C6 (amended): for every requested call whose args field is a
non-empty string, the loop attempts to parse it as JSON before dispatch; on
success the parsed value is dispatched and on failure the raw string is
dispatched unchanged.  An empty-string args value is instead replaced by
the empty dict before the parse attempt. -/
theorem c6_string_args_parse (jsonLoads : String → Option JVal)
    (tc : ToolCall) (s : String) (hargs : tc.args = some (JVal.str s))
    (hs : s ≠ "") :
    processArgs jsonLoads tc =
      match jsonLoads s with
      | some v => v
      | none => JVal.str s := by
  have hfalsy : (JVal.str s).falsy = false := by
    simp [JVal.falsy, hs]
  simp only [processArgs, getArgs, coerceArgs, hargs, hfalsy,
    Bool.false_eq_true, if_false]

/-- Witness for C6 (amended): an unparseable non-empty string is forwarded
unchanged. -/
theorem c6_string_args_parse_witness :
    processArgs jsonLoadsNone ⟨"a", "add", some (JVal.str "not json")⟩ =
      JVal.str "not json" :=
  c6_string_args_parse jsonLoadsNone
    ⟨"a", "add", some (JVal.str "not json")⟩ "not json" rfl (by decide)
